import Mathlib

/-!
Verification of the StyleAgent image-generation scripts.

This file shallowly embeds the original decision logic of the repository:

* `scripts/enhanced_outfit_generator.py` —
  `ModelManager._scan_available_models`, `ModelManager.get_optimal_model`,
  `ModelManager._get_system_info`, `EnhancedGenerator.generate_outfit_image`,
  and `main` (CLI envelope / exit-code behaviour);
* `scripts/generate_outfit_image.py` — `generate_image` and `main`;
* `scripts/install_flux_models.py` — `get_system_info`.

External effects (filesystem presence, hardware probes, the diffusion
library, wall-clock time) are passed in as explicit parameters: the
filesystem is a predicate `String → Bool` on paths, probes are
`Except String`-valued outcomes, and timestamps are `Nat` arguments.
Fallible Python code (functions that may `raise`) is embedded as
`Except String`-valued Lean functions.
-/

deriving instance DecidableEq for Except

namespace StyleAgent

/-- A model descriptor, as built by `ModelManager._scan_available_models`
(the dict values of `sdxl_models`).  `pipeline_class` is the name of the
diffusers pipeline class stored in the dict. -/
structure ModelInfo where
  path : String
  type : String
  pipeline_class : String
  quality_score : Nat
  speed_score : Nat
  vram_required : Nat
deriving DecidableEq, Repr

/-- Path join `models_dir / name` (pathlib `/` operator). -/
def modelPath (models_dir name : String) : String :=
  models_dir ++ "/" ++ name

/-- The `juggernaut-xl` descriptor from `_scan_available_models`. -/
def juggernautXL (models_dir : String) : ModelInfo :=
  { path := modelPath models_dir "juggernaut-xl"
    type := "sdxl"
    pipeline_class := "StableDiffusionXLPipeline"
    quality_score := 95
    speed_score := 70
    vram_required := 8 }

/-- The `realvis-xl` descriptor from `_scan_available_models`. -/
def realvisXL (models_dir : String) : ModelInfo :=
  { path := modelPath models_dir "realvis-xl"
    type := "sdxl"
    pipeline_class := "StableDiffusionXLPipeline"
    quality_score := 98
    speed_score := 65
    vram_required := 10 }

/-- The `sdxl-lightning` descriptor from `_scan_available_models`. -/
def sdxlLightning (models_dir : String) : ModelInfo :=
  { path := modelPath models_dir "sdxl-lightning"
    type := "sdxl"
    pipeline_class := "StableDiffusionXLPipeline"
    quality_score := 85
    speed_score := 95
    vram_required := 6 }

/-- The static `sdxl_models` table of `_scan_available_models`,
as an association list in the dict's insertion order. -/
def sdxl_models (models_dir : String) : List (String × ModelInfo) :=
  [("juggernaut-xl", juggernautXL models_dir),
   ("realvis-xl", realvisXL models_dir),
   ("sdxl-lightning", sdxlLightning models_dir)]

/-- `ModelManager._scan_available_models`: keep exactly the table entries
whose `path` exists on disk.  `disk p = true` means the path `p` exists. -/
def scan_available_models (models_dir : String) (disk : String → Bool) :
    List (String × ModelInfo) :=
  (sdxl_models models_dir).filter (fun p => disk p.2.path)

/-- Dict membership/indexing (`name in models` / `models[name]`) on the
association list. -/
def lookup : List (String × ModelInfo) → String → Option ModelInfo
  | [], _ => none
  | (k, v) :: rest, name => if k = name then some v else lookup rest name

/-- The ordered preset-keyed `if/elif` chain of
`ModelManager.get_optimal_model` (lines 79–98), before the SD1.5 fallback:
`none` means no priority rule produced a model. -/
def priority_choice (available : List (String × ModelInfo))
    (quality_preset : String) (vram_gb : ℚ) : Option ModelInfo :=
  if quality_preset = "commercial" ∧ 16 ≤ vram_gb then
    match lookup available "realvis-xl" with
    | some m => some m
    | none => lookup available "juggernaut-xl"
  else if (quality_preset = "high_quality" ∨ quality_preset = "standard") ∧
      8 ≤ vram_gb then
    match lookup available "juggernaut-xl" with
    | some m => some m
    | none => lookup available "realvis-xl"
  else if quality_preset = "preview" ∧ 6 ≤ vram_gb then
    match lookup available "sdxl-lightning" with
    | some m => some m
    | none => lookup available "juggernaut-xl"
  else none

/-- `ModelManager.get_optimal_model`: run the priority chain; if no rule
returned, fall back to `sd15` when available, else raise
`RuntimeError("No compatible models found")`. -/
def get_optimal_model (models_dir : String) (disk : String → Bool)
    (quality_preset : String) (vram_gb : ℚ) : Except String ModelInfo :=
  let available := scan_available_models models_dir disk
  match priority_choice available quality_preset vram_gb with
  | some m => Except.ok m
  | none =>
      match lookup available "sd15" with
      | some m => Except.ok m
      | none => Except.error "No compatible models found"

/-- The system-info record built by `ModelManager._get_system_info` and by
`get_system_info` of install_flux_models.py (the `torch_version` entry of
the former is a constant string and is omitted). -/
structure SystemInfo where
  device : String
  ram_gb : ℚ
  vram_gb : ℚ
deriving DecidableEq, Repr

/-- `ModelManager._detect_device`: MPS, then CUDA, then CPU. -/
def detect_device (mps_available cuda_available : Bool) : String :=
  if mps_available then "mps"
  else if cuda_available then "cuda"
  else "cpu"

/-- `ModelManager._get_system_info` (enhanced_outfit_generator.py,
lines 53–70).  The psutil RAM probe and the CUDA device-property probe are
passed in as `Except`-valued outcomes.  The Python body contains no
exception handler, so a probe error propagates to the caller; the `mps`
branch estimates VRAM as 0.6 of RAM and the `cpu` branch uses 0. -/
def get_system_info (device : String) (ram_probe : Except String ℚ)
    (cuda_mem_probe : Except String ℚ) : Except String SystemInfo := do
  let ram_gb ← ram_probe
  let vram_gb ←
    if device = "mps" then Except.ok (ram_gb * (3 / 5))
    else if device = "cuda" then cuda_mem_probe
    else Except.ok (0 : ℚ)
  Except.ok { device := device, ram_gb := ram_gb, vram_gb := vram_gb }

/-- `get_system_info` of install_flux_models.py (lines 51–84).  The whole
body sits inside `try/except`, and the handler returns `None` — it does
not build a CPU-only record. -/
def get_system_info_install (mps_available cuda_available : Bool)
    (ram_probe : Except String ℚ) (cuda_mem_probe : Except String ℚ) :
    Option SystemInfo :=
  match (do
    let ram_gb ← ram_probe
    let dv ←
      if mps_available then Except.ok ("mps", ram_gb * (3 / 5))
      else if cuda_available then
        (do
          let v ← cuda_mem_probe
          Except.ok ("cuda", v))
      else Except.ok ("cpu", (0 : ℚ))
    Except.ok { device := dv.1, ram_gb := ram_gb, vram_gb := dv.2 } :
      Except String SystemInfo) with
  | Except.ok s => some s
  | Except.error _ => none

/-- One entry of `EnhancedGenerator._get_generation_params`. -/
structure GenParams where
  num_inference_steps : Nat
  guidance_scale : ℚ
  width : Nat
  height : Nat
  num_images_per_prompt : Nat
deriving DecidableEq, Repr

/-- `EnhancedGenerator._get_generation_params`, read as a dict lookup
(`self.generation_params[quality_preset]`); `none` models a `KeyError`. -/
def generation_params : String → Option GenParams
  | "preview" => some ⟨15, 7, 768, 1024, 1⟩
  | "standard" => some ⟨25, 15 / 2, 1024, 1024, 1⟩
  | "high_quality" => some ⟨30, 8, 1024, 1344, 1⟩
  | "commercial" => some ⟨40, 17 / 2, 1024, 1536, 1⟩
  | _ => none

/-- The output directory hardcoded in `generate_outfit_image` for the
timestamped default path. -/
def default_output_dir : String :=
  "/Users/kaiyakramer/styleagent/generated_outfits/"

/-- The timestamped default output path of `generate_outfit_image`
(`timestamp = int(time.time() * 1000)`). -/
def default_output_path (timestamp_ms : Nat) : String :=
  default_output_dir ++ "enhanced_outfit_" ++ toString timestamp_ms ++ ".png"

/-- The generation metadata assembled by `generate_outfit_image`.  The
wall-clock `generation_time` entry and the echoed `parameters` dict are
time- and dict-valued and omitted from the embedding. -/
structure Metadata where
  model_type : String
  model_path : String
  quality_preset : String
  resolution : String
  device : String
  prompt : String
  negative_prompt : String
deriving DecidableEq, Repr

/-- `EnhancedGenerator.generate_outfit_image` (lines 246–315).  The
external effects are parameters: `load_outcome` is `load_pipeline`,
`gen_outcome` the diffusion call, `save_outcome` `os.makedirs` plus
`image.save`; each may fail, and failures propagate (`raise`).  The
returned pair is `(output_path, metadata)`. -/
def generate_outfit_image (models_dir : String) (disk : String → Bool)
    (device : String) (vram_gb : ℚ) (prompt negative_prompt : String)
    (quality_preset : String) (output_path : Option String)
    (timestamp_ms : Nat) (load_outcome gen_outcome save_outcome : Except String Unit) :
    Except String (String × Metadata) :=
  match get_optimal_model models_dir disk quality_preset vram_gb with
  | Except.error e => Except.error e
  | Except.ok model_info =>
      match load_outcome with
      | Except.error e => Except.error e
      | Except.ok _ =>
          match generation_params quality_preset with
          | none => Except.error ("KeyError: " ++ quality_preset)
          | some params =>
              match gen_outcome with
              | Except.error e => Except.error e
              | Except.ok _ =>
                  let out :=
                    match output_path with
                    | some p => p
                    | none => default_output_path timestamp_ms
                  match save_outcome with
                  | Except.error e => Except.error e
                  | Except.ok _ =>
                      Except.ok (out,
                        { model_type := model_info.type
                          model_path := model_info.path
                          quality_preset := quality_preset
                          resolution := toString params.width ++ "x" ++
                            toString params.height
                          device := device
                          prompt := prompt
                          negative_prompt := negative_prompt })

/-- The JSON envelope printed at the process boundary, reduced to the
fields the error-handling claims are about (`success` and `error`; the
success payloads additionally carry path/metadata). -/
structure Envelope where
  success : Bool
  error : Option String
deriving DecidableEq, Repr

/-- `main` of enhanced_outfit_generator.py (lines 321–372).  `parsed` is
the `argparse` outcome: `Except.error code` models an argparse
`SystemExit code` (raised before the `try` block; argparse prints usage
text, not a JSON envelope).  `gen_outcome` is the outcome of building the
generator and running `generate_outfit_image`.  Result: the envelope
printed, if any, and the process exit code. -/
def enhanced_main (parsed : Except Nat Unit)
    (gen_outcome : Except String (String × Metadata)) :
    Option Envelope × Nat :=
  match parsed with
  | Except.error code => (none, code)
  | Except.ok _ =>
      match gen_outcome with
      | Except.ok _ => (some { success := true, error := none }, 0)
      | Except.error e => (some { success := false, error := some e }, 1)

/-- `generate_image` of generate_outfit_image.py, reduced to the envelope
it returns: dependency check first, then the `try/except` around the
whole generation (`gen_outcome` stands for pipeline construction,
inference and saving; its `ok` value is the image path). -/
def generate_image (deps_available : Bool) (import_error : String)
    (gen_outcome : Except String String) : Envelope :=
  if deps_available = false then
    { success := false,
      error := some ("Dependencies not available: " ++ import_error) }
  else
    match gen_outcome with
    | Except.ok _ => { success := true, error := none }
    | Except.error e => { success := false, error := some e }

/-- `main` of generate_outfit_image.py (lines 127–166).  `cmd` is
`sys.argv[1]` when present; `params_arg` describes `sys.argv[2]`: `none`
= absent, `some false` = present but invalid JSON, `some true` = valid
JSON.  `test_result` and `gen_result` are the envelopes returned by
`test_availability` and `generate_image`.  Result: printed envelope and
exit code — paths that never call `sys.exit` end with code 0. -/
def legacy_main (cmd : Option String) (params_arg : Option Bool)
    (test_result gen_result : Envelope) : Option Envelope × Nat :=
  match cmd with
  | none =>
      (some { success := false,
              error := some "No command provided. Use test_availability or generate" }, 1)
  | some c =>
      if c = "test_availability" then (some test_result, 0)
      else if c = "generate" then
        match params_arg with
        | none =>
            (some { success := false,
                    error := some "No parameters provided for generation" }, 1)
        | some false =>
            (some { success := false,
                    error := some "Invalid JSON parameters" }, 1)
        | some true => (some gen_result, 0)
      else
        (some { success := false, error := some ("Unknown command: " ++ c) }, 1)

/-- Fixture: a models directory that contains only `realvis-xl`. -/
def disk_realvis_only : String → Bool :=
  fun p => p = modelPath "m" "realvis-xl"

/-- Fixture: a models directory that contains only `juggernaut-xl`. -/
def disk_jugg_only : String → Bool :=
  fun p => p = modelPath "m" "juggernaut-xl"

/-- Fixture: a models directory that contains only an `sd15` artifact. -/
def disk_sd15_only : String → Bool :=
  fun p => p = modelPath "m" "sd15"

/-- Fixture: a models directory in which every path exists. -/
def disk_all : String → Bool := fun _ => true

/-- Fixture: an empty models directory. -/
def disk_empty : String → Bool := fun _ => false

end StyleAgent

namespace StyleAgent

/-- A successful association-list lookup finds a member of the list. -/
lemma lookup_mem : ∀ {l : List (String × ModelInfo)} {name : String} {m : ModelInfo},
    lookup l name = some m → (name, m) ∈ l := by
  intro l
  induction l with
  | nil => intro name m h; simp [lookup] at h
  | cons p rest ih =>
      intro name m h
      obtain ⟨k, v⟩ := p
      rw [lookup] at h
      by_cases hk : k = name
      · rw [if_pos hk] at h
        obtain rfl := Option.some.inj h
        subst hk
        exact List.mem_cons_self _ _
      · rw [if_neg hk] at h
        exact List.mem_cons_of_mem _ (ih h)

/-- Members of the scan result come from the static table and their path
exists on disk. -/
lemma mem_scan_available {models_dir : String} {disk : String → Bool}
    {p : String × ModelInfo} (hp : p ∈ scan_available_models models_dir disk) :
    p ∈ sdxl_models models_dir ∧ disk p.2.path = true := by
  have h := List.mem_filter.mp hp
  exact ⟨h.1, by simpa using h.2⟩

/-- Any model found in the scan result has its artifact on disk. -/
lemma lookup_scan_disk {models_dir : String} {disk : String → Bool}
    {name : String} {m : ModelInfo}
    (h : lookup (scan_available_models models_dir disk) name = some m) :
    disk m.path = true :=
  (mem_scan_available (lookup_mem h)).2

/-- Any successful scan lookup is one of the three static SDXL entries. -/
lemma lookup_scan_cases {models_dir : String} {disk : String → Bool}
    {name : String} {m : ModelInfo}
    (h : lookup (scan_available_models models_dir disk) name = some m) :
    (name = "juggernaut-xl" ∧ m = juggernautXL models_dir) ∨
    (name = "realvis-xl" ∧ m = realvisXL models_dir) ∨
    (name = "sdxl-lightning" ∧ m = sdxlLightning models_dir) := by
  have hmem := (mem_scan_available (lookup_mem h)).1
  simp only [sdxl_models, List.mem_cons, List.mem_singleton,
    List.not_mem_nil, or_false, Prod.mk.injEq] at hmem
  tauto

/-- `sd15` is never registered by the scan, whatever is on disk. -/
lemma lookup_scan_sd15 (models_dir : String) (disk : String → Bool) :
    lookup (scan_available_models models_dir disk) "sd15" = none := by
  cases h : lookup (scan_available_models models_dir disk) "sd15" with
  | none => rfl
  | some m =>
      rcases lookup_scan_cases h with ⟨h1, _⟩ | ⟨h1, _⟩ | ⟨h1, _⟩ <;>
        exact absurd h1 (by decide)

/-- Scan lookup of `juggernaut-xl` reduced to the disk check. -/
lemma lookup_scan_jugg (models_dir : String) (disk : String → Bool) :
    lookup (scan_available_models models_dir disk) "juggernaut-xl" =
      if disk (modelPath models_dir "juggernaut-xl") then some (juggernautXL models_dir)
      else none := by
  cases h1 : disk (modelPath models_dir "juggernaut-xl") <;>
    cases h2 : disk (modelPath models_dir "realvis-xl") <;>
      cases h3 : disk (modelPath models_dir "sdxl-lightning") <;>
        simp_all [scan_available_models, sdxl_models, lookup, List.filter,
          juggernautXL, realvisXL, sdxlLightning, modelPath]

/-- Scan lookup of `realvis-xl` reduced to the disk check. -/
lemma lookup_scan_realvis (models_dir : String) (disk : String → Bool) :
    lookup (scan_available_models models_dir disk) "realvis-xl" =
      if disk (modelPath models_dir "realvis-xl") then some (realvisXL models_dir)
      else none := by
  cases h1 : disk (modelPath models_dir "juggernaut-xl") <;>
    cases h2 : disk (modelPath models_dir "realvis-xl") <;>
      cases h3 : disk (modelPath models_dir "sdxl-lightning") <;>
        simp_all [scan_available_models, sdxl_models, lookup, List.filter,
          juggernautXL, realvisXL, sdxlLightning, modelPath]

/-- Scan lookup of `sdxl-lightning` reduced to the disk check. -/
lemma lookup_scan_lightning (models_dir : String) (disk : String → Bool) :
    lookup (scan_available_models models_dir disk) "sdxl-lightning" =
      if disk (modelPath models_dir "sdxl-lightning") then some (sdxlLightning models_dir)
      else none := by
  cases h1 : disk (modelPath models_dir "juggernaut-xl") <;>
    cases h2 : disk (modelPath models_dir "realvis-xl") <;>
      cases h3 : disk (modelPath models_dir "sdxl-lightning") <;>
        simp_all [scan_available_models, sdxl_models, lookup, List.filter,
          juggernautXL, realvisXL, sdxlLightning, modelPath]

end StyleAgent

namespace StyleAgent

/-- Claim C1 counterexample: with 8 GB of usable memory and only
`realvis-xl` on disk, the `high_quality` preset selects `realvis-xl`,
whose own `vram_required` is 10 GB — more than the usable memory, so the
claimed invariant `vram_required ≤ usable memory` fails. -/
theorem c1_vram_bound_counterexample :
    get_optimal_model "m" disk_realvis_only "high_quality" 8 =
      Except.ok (realvisXL "m") ∧
    (realvisXL "m").vram_required = 10 ∧ ¬((10 : ℚ) ≤ 8) := by decide

/-- Claim C1 (amended): whenever `get_optimal_model` returns a model, that
model's on-disk artifact is present, and the usable memory clears the
matched preset rule's threshold (16 GB for `commercial`, 8 GB for
`high_quality`/`standard`, 6 GB for `preview`) — but not necessarily the
selected model's own `vram_required`. -/
theorem c1_selected_model_on_disk_and_preset_threshold
    (models_dir : String) (disk : String → Bool) (preset : String) (vram : ℚ)
    (m : ModelInfo)
    (h : get_optimal_model models_dir disk preset vram = Except.ok m) :
    disk m.path = true ∧
      ((preset = "commercial" ∧ 16 ≤ vram) ∨
       ((preset = "high_quality" ∨ preset = "standard") ∧ 8 ≤ vram) ∨
       (preset = "preview" ∧ 6 ≤ vram)) := by
  simp only [get_optimal_model] at h
  rcases hpc : priority_choice (scan_available_models models_dir disk) preset vram with _ | m'
  · rw [hpc, lookup_scan_sd15] at h
    simp at h
  · rw [hpc] at h
    injection h with hm
    subst hm
    rw [priority_choice] at hpc
    split at hpc
    · rename_i hc
      refine ⟨?_, Or.inl hc⟩
      cases hr : lookup (scan_available_models models_dir disk) "realvis-xl" with
      | some mr =>
          rw [hr] at hpc
          obtain rfl := Option.some.inj hpc
          exact lookup_scan_disk hr
      | none =>
          rw [hr] at hpc
          exact lookup_scan_disk hpc
    · split at hpc
      · rename_i hc
        refine ⟨?_, Or.inr (Or.inl hc)⟩
        cases hr : lookup (scan_available_models models_dir disk) "juggernaut-xl" with
        | some mr =>
            rw [hr] at hpc
            obtain rfl := Option.some.inj hpc
            exact lookup_scan_disk hr
        | none =>
            rw [hr] at hpc
            exact lookup_scan_disk hpc
      · split at hpc
        · rename_i hc
          refine ⟨?_, Or.inr (Or.inr hc)⟩
          cases hr : lookup (scan_available_models models_dir disk) "sdxl-lightning" with
          | some mr =>
              rw [hr] at hpc
              obtain rfl := Option.some.inj hpc
              exact lookup_scan_disk hr
          | none =>
              rw [hr] at hpc
              exact lookup_scan_disk hpc
        · exact absurd hpc (by simp)

/-- Claim C1 witness: the amended statement instantiated at the
counterexample's input. -/
theorem c1_selected_model_on_disk_and_preset_threshold_witness :
    disk_realvis_only (realvisXL "m").path = true ∧
      (("high_quality" = "commercial" ∧ (16 : ℚ) ≤ 8) ∨
       (("high_quality" = "high_quality" ∨ "high_quality" = "standard") ∧ (8 : ℚ) ≤ 8) ∨
       ("high_quality" = "preview" ∧ (6 : ℚ) ≤ 8)) :=
  c1_selected_model_on_disk_and_preset_threshold "m" disk_realvis_only
    "high_quality" 8 (realvisXL "m") (by decide)

/-- Claim C2: the SD1.5 fallback of `get_optimal_model` is dead code.
Even when an `sd15` artifact is the only thing present in the models
directory, `_scan_available_models` does not register it (it only checks
the three SDXL directories), so `select(preview, {sd15}, usable=0GB)`
raises `RuntimeError("No compatible models found")` instead of returning
`sd15` — contradicting the module's own docstring ("Supports … SD1.5
models") and the in-function comment ("Fallback to SD1.5 if available"). -/
theorem c2_sd15_fallback_unreachable :
    scan_available_models "m" disk_sd15_only = [] ∧
    get_optimal_model "m" disk_sd15_only "preview" 0 =
      Except.error "No compatible models found" := by decide

end StyleAgent

namespace StyleAgent

/-- Claim C5: for the `commercial` preset with usable memory ≥ 16 GB,
selection returns `realvis-xl` whenever it is present, and `juggernaut-xl`
exactly when `realvis-xl` is absent and `juggernaut-xl` is present —
the explicit listed priority order of the first policy rule. -/
theorem c5_commercial_priority_order (models_dir : String)
    (disk : String → Bool) (vram : ℚ) (h16 : 16 ≤ vram) :
    (disk (modelPath models_dir "realvis-xl") = true →
      get_optimal_model models_dir disk "commercial" vram =
        Except.ok (realvisXL models_dir)) ∧
    (disk (modelPath models_dir "realvis-xl") = false →
      disk (modelPath models_dir "juggernaut-xl") = true →
      get_optimal_model models_dir disk "commercial" vram =
        Except.ok (juggernautXL models_dir)) := by
  constructor
  · intro hr
    simp [get_optimal_model, priority_choice, lookup_scan_realvis,
      lookup_scan_jugg, hr, h16]
  · intro hr hj
    simp [get_optimal_model, priority_choice, lookup_scan_realvis,
      lookup_scan_jugg, hr, hj, h16]

/-- Claim C5 witness: both models present, 20 GB usable. -/
theorem c5_commercial_priority_order_witness :
    (16 : ℚ) ≤ 20 ∧
    ((disk_all (modelPath "m" "realvis-xl") = true →
       get_optimal_model "m" disk_all "commercial" 20 =
         Except.ok (realvisXL "m")) ∧
     (disk_all (modelPath "m" "realvis-xl") = false →
       disk_all (modelPath "m" "juggernaut-xl") = true →
       get_optimal_model "m" disk_all "commercial" 20 =
         Except.ok (juggernautXL "m"))) :=
  ⟨by decide, c5_commercial_priority_order "m" disk_all 20 (by decide)⟩

/-- Claim C6: for the `preview` preset with usable memory ≥ 6 GB, when
`sdxl-lightning` is absent and `juggernaut-xl` is present, selection
returns `juggernaut-xl`, the second choice of the preview priority list. -/
theorem c6_preview_second_choice (models_dir : String)
    (disk : String → Bool) (vram : ℚ) (h6 : 6 ≤ vram)
    (hl : disk (modelPath models_dir "sdxl-lightning") = false)
    (hj : disk (modelPath models_dir "juggernaut-xl") = true) :
    get_optimal_model models_dir disk "preview" vram =
      Except.ok (juggernautXL models_dir) := by
  simp [get_optimal_model, priority_choice, lookup_scan_lightning,
    lookup_scan_jugg, h6, hl, hj]

/-- Claim C6 witness: only `juggernaut-xl` present, exactly 6 GB usable. -/
theorem c6_preview_second_choice_witness :
    (6 : ℚ) ≤ 6 ∧
    disk_jugg_only (modelPath "m" "sdxl-lightning") = false ∧
    disk_jugg_only (modelPath "m" "juggernaut-xl") = true ∧
    get_optimal_model "m" disk_jugg_only "preview" 6 =
      Except.ok (juggernautXL "m") :=
  ⟨by decide, by decide, by decide,
    c6_preview_second_choice "m" disk_jugg_only 6 (by decide) (by decide)
      (by decide)⟩

/-- Claim C7: when no priority rule of `get_optimal_model` matches (each
rule fails on preset, memory threshold, or availability of its listed
models) and `sd15` is not among the available models, selection fails
with the `RuntimeError("No compatible models found")`. -/
theorem c7_no_match_no_sd15_error (models_dir : String)
    (disk : String → Bool) (preset : String) (vram : ℚ)
    (h1 : ¬(preset = "commercial" ∧ 16 ≤ vram ∧
      (disk (modelPath models_dir "realvis-xl") = true ∨
       disk (modelPath models_dir "juggernaut-xl") = true)))
    (h2 : ¬((preset = "high_quality" ∨ preset = "standard") ∧ 8 ≤ vram ∧
      (disk (modelPath models_dir "juggernaut-xl") = true ∨
       disk (modelPath models_dir "realvis-xl") = true)))
    (h3 : ¬(preset = "preview" ∧ 6 ≤ vram ∧
      (disk (modelPath models_dir "sdxl-lightning") = true ∨
       disk (modelPath models_dir "juggernaut-xl") = true)))
    (h4 : lookup (scan_available_models models_dir disk) "sd15" = none) :
    get_optimal_model models_dir disk preset vram =
      Except.error "No compatible models found" := by
  have hpc : priority_choice (scan_available_models models_dir disk) preset vram = none := by
    rw [priority_choice]
    split
    · rename_i hc
      rw [lookup_scan_realvis, lookup_scan_jugg]
      cases hr : disk (modelPath models_dir "realvis-xl") with
      | true => exact absurd ⟨hc.1, hc.2, Or.inl hr⟩ h1
      | false =>
          cases hj : disk (modelPath models_dir "juggernaut-xl") with
          | true => exact absurd ⟨hc.1, hc.2, Or.inr hj⟩ h1
          | false => simp
    · split
      · rename_i hc
        rw [lookup_scan_jugg, lookup_scan_realvis]
        cases hj : disk (modelPath models_dir "juggernaut-xl") with
        | true => exact absurd ⟨hc.1, hc.2, Or.inl hj⟩ h2
        | false =>
            cases hr : disk (modelPath models_dir "realvis-xl") with
            | true => exact absurd ⟨hc.1, hc.2, Or.inr hr⟩ h2
            | false => simp
      · split
        · rename_i hc
          rw [lookup_scan_lightning, lookup_scan_jugg]
          cases hl : disk (modelPath models_dir "sdxl-lightning") with
          | true => exact absurd ⟨hc.1, hc.2, Or.inl hl⟩ h3
          | false =>
              cases hj : disk (modelPath models_dir "juggernaut-xl") with
              | true => exact absurd ⟨hc.1, hc.2, Or.inr hj⟩ h3
              | false => simp
        · rfl
  simp only [get_optimal_model, hpc, h4]

/-- Claim C7 witness: `standard` preset, empty models directory, 32 GB. -/
theorem c7_no_match_no_sd15_error_witness :
    ¬("standard" = "commercial" ∧ (16 : ℚ) ≤ 32 ∧
      (disk_empty (modelPath "m" "realvis-xl") = true ∨
       disk_empty (modelPath "m" "juggernaut-xl") = true)) ∧
    ¬(("standard" = "high_quality" ∨ "standard" = "standard") ∧ (8 : ℚ) ≤ 32 ∧
      (disk_empty (modelPath "m" "juggernaut-xl") = true ∨
       disk_empty (modelPath "m" "realvis-xl") = true)) ∧
    ¬("standard" = "preview" ∧ (6 : ℚ) ≤ 32 ∧
      (disk_empty (modelPath "m" "sdxl-lightning") = true ∨
       disk_empty (modelPath "m" "juggernaut-xl") = true)) ∧
    lookup (scan_available_models "m" disk_empty) "sd15" = none ∧
    get_optimal_model "m" disk_empty "standard" 32 =
      Except.error "No compatible models found" :=
  ⟨by decide, by decide, by decide, by decide,
    c7_no_match_no_sd15_error "m" disk_empty "standard" 32 (by decide)
      (by decide) (by decide) (by decide)⟩

/-- Claim C9: whatever the state of the models directory, every model the
scan registers is one of the three SDXL entries `juggernaut-xl`,
`realvis-xl`, `sdxl-lightning`, of family `sdxl` — no sd15-family or
flux-family model can ever be in the available set. -/
theorem c9_available_subset_sdxl (models_dir : String)
    (disk : String → Bool) (name : String) (m : ModelInfo)
    (h : lookup (scan_available_models models_dir disk) name = some m) :
    (name = "juggernaut-xl" ∨ name = "realvis-xl" ∨ name = "sdxl-lightning") ∧
      m.type = "sdxl" := by
  rcases lookup_scan_cases h with ⟨h1, h2⟩ | ⟨h1, h2⟩ | ⟨h1, h2⟩ <;>
    subst h2 <;>
      simp [h1, juggernautXL, realvisXL, sdxlLightning]

/-- Claim C9 witness: a fully populated directory, looked up at
`juggernaut-xl`. -/
theorem c9_available_subset_sdxl_witness :
    lookup (scan_available_models "m" disk_all) "juggernaut-xl" =
      some (juggernautXL "m") ∧
    (("juggernaut-xl" = "juggernaut-xl" ∨ "juggernaut-xl" = "realvis-xl" ∨
      "juggernaut-xl" = "sdxl-lightning") ∧
      (juggernautXL "m").type = "sdxl") :=
  ⟨by decide,
    c9_available_subset_sdxl "m" disk_all "juggernaut-xl" (juggernautXL "m")
      (by decide)⟩

/-- Claim C10: for the `commercial` preset with usable memory at least
8 GB but below 16 GB, selection always fails — the commercial rule's
16 GB threshold fails, the other rules are keyed to different presets,
and the `sd15` fallback can never fire — even if `juggernaut-xl` (8 GB)
is present on disk. -/
theorem c10_commercial_midrange_always_error (models_dir : String)
    (disk : String → Bool) (vram : ℚ) (h8 : 8 ≤ vram) (hlt : vram < 16) :
    get_optimal_model models_dir disk "commercial" vram =
      Except.error "No compatible models found" := by
  have h16 : ¬(16 ≤ vram) := not_le.mpr hlt
  simp [get_optimal_model, priority_choice, h16, lookup_scan_sd15]

/-- Claim C10 witness: every model present, 8 GB usable. -/
theorem c10_commercial_midrange_always_error_witness :
    (8 : ℚ) ≤ 8 ∧ (8 : ℚ) < 16 ∧
    get_optimal_model "m" disk_all "commercial" 8 =
      Except.error "No compatible models found" :=
  ⟨by decide, by decide,
    c10_commercial_midrange_always_error "m" disk_all 8 (by decide)
      (by decide)⟩

end StyleAgent

namespace StyleAgent

/-- Claim C3 counterexample: capability detection can fail.  In
enhanced_outfit_generator.py a failing CUDA device-property probe
propagates out of `_get_system_info` (there is no handler), and in
install_flux_models.py a failing probe makes `get_system_info` return
`None` — neither yields the claimed CPU-only, zero-memory result. -/
theorem c3_never_raises_counterexample :
    get_system_info "cuda" (Except.ok 32) (Except.error "probe failed") =
      Except.error "probe failed" ∧
    get_system_info_install false false (Except.error "probe failed")
      (Except.ok 0) = none := by decide

/-- Claim C3 (amended): in enhanced_outfit_generator.py, any probe error
propagates out of `_get_system_info` unchanged; in install_flux_models.py,
`get_system_info` never propagates a probe error but returns `None` on
it, and only the no-accelerator path yields a CPU record with zero
accelerator memory. -/
theorem c3_detection_error_propagates_or_none :
    (∀ (device e : String) (cuda_mem_probe : Except String ℚ),
        get_system_info device (Except.error e) cuda_mem_probe =
          Except.error e) ∧
    (∀ (r : ℚ) (e : String),
        get_system_info "cuda" (Except.ok r) (Except.error e) =
          Except.error e) ∧
    (∀ (mps cuda : Bool) (e : String) (c : Except String ℚ),
        get_system_info_install mps cuda (Except.error e) c = none) ∧
    (∀ (r : ℚ) (c : Except String ℚ),
        get_system_info_install false false (Except.ok r) c =
          some { device := "cpu", ram_gb := r, vram_gb := 0 }) := by
  refine ⟨?_, ?_, ?_, ?_⟩ <;> intros <;> rfl

/-- Claim C4 counterexample: a failing invocation that exits with code 0.
Running generate_outfit_image.py with the `generate` command and valid
JSON parameters while the dependencies are missing prints the
success=false envelope and falls off the end of `main` — process exit
code 0, not non-zero. -/
theorem c4_zero_exit_on_failure_counterexample :
    legacy_main (some "generate") (some true)
        { success := true, error := none }
        (generate_image false "No module named torch" (Except.ok "p.png")) =
      (some { success := false, error := some "Dependencies not available: No module named torch" }, 0) := by
  decide

/-- Claim C4 (amended): in enhanced_outfit_generator.py every exception
from the generation body yields the success=false envelope with the error
string and exit code 1, while argparse failures exit non-zero with no
JSON envelope; in generate_outfit_image.py the pre-dispatch failures
(no command, missing parameters, invalid JSON, unknown command) yield the
envelope with exit code 1, but a dispatched `generate` or
`test_availability` result is printed with exit code 0 even when its
`success` field is false. -/
theorem c4_failure_envelope_exit_codes :
    (∀ (e : String),
        enhanced_main (Except.ok ()) (Except.error e) =
          (some { success := false, error := some e }, 1)) ∧
    (∀ (code : Nat) (g : Except String (String × Metadata)),
        enhanced_main (Except.error code) g = (none, code)) ∧
    (∀ (t g : Envelope),
        legacy_main none none t g =
          (some { success := false, error := some "No command provided. Use test_availability or generate" }, 1)) ∧
    (∀ (t g : Envelope) (p : Option Bool),
        legacy_main (some "test_availability") p t g = (some t, 0)) ∧
    (∀ (t g : Envelope),
        legacy_main (some "generate") none t g =
          (some { success := false, error := some "No parameters provided for generation" }, 1)) ∧
    (∀ (t g : Envelope),
        legacy_main (some "generate") (some false) t g =
          (some { success := false, error := some "Invalid JSON parameters" }, 1)) ∧
    (∀ (t g : Envelope),
        legacy_main (some "generate") (some true) t g = (some g, 0)) ∧
    (∀ (t g : Envelope),
        legacy_main (some "bogus") none t g =
          (some { success := false, error := some ("Unknown command: " ++ "bogus") }, 1)) := by
  refine ⟨?_, ?_, ?_, ?_, ?_, ?_, ?_, ?_⟩ <;> intros <;> rfl

/-- Claim C8: when `generate_outfit_image` succeeds, the returned output
path equals the explicitly supplied path exactly, and when no path was
supplied it is the timestamped default under the hardcoded output
directory. -/
theorem c8_output_path_roundtrip (models_dir : String)
    (disk : String → Bool) (device : String) (vram : ℚ)
    (prompt neg preset : String) (out : Option String) (ts : Nat)
    (lo go so : Except String Unit) (path : String) (md : Metadata)
    (h : generate_outfit_image models_dir disk device vram prompt neg
        preset out ts lo go so = Except.ok (path, md)) :
    (∀ p, out = some p → path = p) ∧
    (out = none → path = default_output_path ts) := by
  rcases out with _ | op <;>
    rcases hm : get_optimal_model models_dir disk preset vram with e | mi <;>
      rcases hp : generation_params preset with _ | p <;>
        rcases lo with le | lu <;>
          rcases go with ge | gu <;>
            rcases so with se | su <;>
              simp_all [generate_outfit_image]

/-- Claim C8 witness: an explicit output path round-trips through a
successful generation. -/
theorem c8_output_path_roundtrip_witness :
    generate_outfit_image "m" disk_all "mps" 8 "p" "n" "high_quality"
        (some "/tmp/out.png") 0 (Except.ok ()) (Except.ok ()) (Except.ok ()) =
      Except.ok ("/tmp/out.png",
        ⟨"sdxl", modelPath "m" "juggernaut-xl", "high_quality", "1024x1344",
          "mps", "p", "n"⟩) ∧
    ((∀ p, (some "/tmp/out.png" : Option String) = some p →
        "/tmp/out.png" = p) ∧
     ((some "/tmp/out.png" : Option String) = none →
        "/tmp/out.png" = default_output_path 0)) :=
  ⟨by decide,
    c8_output_path_roundtrip "m" disk_all "mps" 8 "p" "n" "high_quality"
      (some "/tmp/out.png") 0 (Except.ok ()) (Except.ok ()) (Except.ok ())
      "/tmp/out.png"
      ⟨"sdxl", modelPath "m" "juggernaut-xl", "high_quality", "1024x1344",
        "mps", "p", "n"⟩
      (by decide)⟩

end StyleAgent
